import Mathlib

/-!
Verification of the level-zero-tests conformance suite against its
natural-language specification.

The development shallowly embeds three source files:

* `src/unnamed/part_000` — the IPC-event child process (`main` plus the four
  `child_*_reads` wait actions);
* `src/conformance_tests/tools/debug/src/child_debugger.cpp` — the
  child-debugger parent process;
* `src/conformance_tests/sysman/test_sysman_memory/src/test_sysman_memory.cpp`
  — the sysman memory tests, including the condition-variable barrier used by
  the two-thread concurrency test and the resource-exhaustion allocation loop.

Driver entry points (`zesDeviceEnumMemoryModules`, `zesMemoryGetProperties`,
`zesMemoryGetState`, allocation and residency calls, debug attach) are external
to the repository; where a claim depends on their behaviour they are modelled
from the spec, and the embedding is parameterised by their outcomes.
-/

/-- Result codes of the driver API that the embedded code inspects.  Only
`ZE_RESULT_SUCCESS` and `ZE_RESULT_ERROR_OUT_OF_DEVICE_MEMORY` are compared
against by the embedded sources; every other code is abstracted by `other`. -/
inductive ze_result_t where
  | success
  | errorOutOfDeviceMemory
  | other (code : Nat)
deriving DecidableEq

/-! ### IPC child process (`src/unnamed/part_000`) -/

/-- The child-behavior selector enum carried in the shared-memory record.
Modelled from the spec: the enum is declared in `test_ipc_event.hpp`, which is
not under `src/`; the spec (section 3) names exactly four behaviors
(host-wait, single-device-wait, second-device-wait, multi-device-wait). -/
inductive child_type_t where
  | hostReads
  | deviceReads
  | device2Reads
  | multiDeviceReads
deriving DecidableEq

/-- Observable actions of the IPC child: the four wait actions
(`child_host_reads`, `child_device_reads`, `child_device2_reads`,
`child_multi_device_reads`, part_000 lines 37-97, each abstracted to a single
action) and the final `lzt::close_ipc_event_handle` call (line 132). -/
inductive ChildAction where
  | actHostReads
  | actDeviceReads
  | actDevice2Reads
  | actMultiDeviceReads
  | closeIpcHandle
deriving DecidableEq

/-- Result of one run of the IPC child: the process exit status and the list
of observable actions performed, in order. -/
structure ChildRun where
  exitCode : Nat
  actions : List ChildAction
deriving DecidableEq

/-- The wait action named by each selector value (the labeled statements of
the switch in `main`, part_000 lines 117-128). -/
def childActionOf : child_type_t → ChildAction
  | .hostReads => .actHostReads
  | .deviceReads => .actDeviceReads
  | .device2Reads => .actDevice2Reads
  | .multiDeviceReads => .actMultiDeviceReads

/-- The `case` labels of the switch statement in `main` (part_000
lines 116-131).  In the source the four labels are written
`CHILD_TEST_HOST_READS:` and so on, WITHOUT the `case` keyword, so under C++
semantics they are ordinary labeled statements, not case labels: the switch
has no case label at all, and every selector value dispatches to
`default:`. -/
def childCaseLabels : List child_type_t := []

/-- The case labels the switch was evidently intended to have.  Modelled from
the spec, section 4.2 step (5): the child performs the action designated by
the selector.  This is the dispatch obtained by prefixing each of the four
labels with `case`. -/
def childCaseLabelsIntended : List child_type_t :=
  [.hostReads, .deviceReads, .device2Reads, .multiDeviceReads]

/-- Semantics of the switch in `main` (part_000 lines 116-131), parameterised
by which selector values are genuine case labels.  A matched case runs the
corresponding wait action, breaks, closes the IPC handle (line 132) and exits
with status 0 (line 133); an unmatched value runs `default: exit(1)`
(lines 129-130), so the close on line 132 is never reached. -/
def childSwitch (labels : List child_type_t) (ct : child_type_t) : ChildRun :=
  if labels.contains ct then
    ⟨0, [childActionOf ct, .closeIpcHandle]⟩
  else
    ⟨1, []⟩

/-- Embedding of `main` of the IPC child (part_000 lines 99-134),
parameterised by the outcome of `zeInit` (line 102) and by whether
`lzt::open_ipc_event_handle` produced a non-null pool handle (lines 111-114).
The shared-memory record read (lines 105-110) is assumed to succeed, as in
every claim about this function; its content is the selector `ct`. -/
def childMain (initOk : Bool) (openedPoolNonNull : Bool) (ct : child_type_t) :
    ChildRun :=
  if initOk = false then ⟨1, []⟩
  else if openedPoolNonNull = false then ⟨1, []⟩
  else childSwitch childCaseLabels ct

/-- The intended `main` of the IPC child.  Modelled from the spec,
section 4.2 steps (4)-(5): identical to `childMain` except that the four
selector values are genuine case labels of the switch. -/
def childMainIntended (initOk : Bool) (openedPoolNonNull : Bool)
    (ct : child_type_t) : ChildRun :=
  if initOk = false then ⟨1, []⟩
  else if openedPoolNonNull = false then ⟨1, []⟩
  else childSwitch childCaseLabelsIntended ct

/-! ### Child debugger (`child_debugger.cpp`) -/

/-- Observable events of the child-debugger process, in the order its `main`
can perform them: `zeInit` (line 64), device lookup (line 71), child launch
(line 85), `lzt::debug_attach` (line 94), `synchro.notify_application()`
(line 100), `debug_helper.wait()` (line 103), `lzt::debug_detach` (line 105). -/
inductive DbgEvent where
  | evInit
  | evFindDevice
  | evLaunchChild
  | evAttach
  | evNotifyApplication
  | evWaitChild
  | evDetach
deriving DecidableEq

/-- Result of one run of the child debugger: exit status and the ordered
event trace. -/
structure DbgRun where
  exitCode : Nat
  events : List DbgEvent
deriving DecidableEq

/-- Embedding of `main` of `child_debugger.cpp` (lines 55-107), parameterised
by the outcomes of the external calls: whether `zeInit` succeeded (line 65),
whether `lzt::find_device` found a device (line 74), whether
`lzt::debug_attach` returned a session (line 95), and the child process's
exit code returned by `debug_helper.exit_code()` (line 106). -/
def debugger_main (initOk deviceFound attachOk : Bool) (childExitCode : Nat) :
    DbgRun :=
  if initOk = false then ⟨1, [.evInit]⟩
  else if deviceFound = false then ⟨1, [.evInit, .evFindDevice]⟩
  else if attachOk = false then
    ⟨1, [.evInit, .evFindDevice, .evLaunchChild, .evAttach]⟩
  else
    ⟨childExitCode,
      [.evInit, .evFindDevice, .evLaunchChild, .evAttach,
        .evNotifyApplication, .evWaitChild, .evDetach]⟩

/-- `occursBefore a b l` is `true` when, scanning `l` left to right, an
occurrence of `a` is met strictly before any occurrence of `b`.  When `b`
does not occur in `l` it is vacuously `true`. -/
def occursBefore (a b : DbgEvent) : List DbgEvent → Bool
  | [] => true
  | x :: rest =>
    if x = b then false
    else if x = a then true
    else occursBefore a b rest

/-! ### Sysman memory queries (`test_sysman_memory.cpp`) -/

/-- Count behaviour of the handle-enumeration wrapper `lzt::get_mem_handles`.
Modelled from the spec: the wrapper (test_harness, not under `src/`) forwards
to the driver's enumeration entry point, whose contract (spec section 8,
first bullet) is that a caller-supplied count of zero, or one larger than the
actual handle count, is replaced by the actual count, while a smaller count is
honoured.  `actual` is the number of enumerable handles; the result is the
value stored back into the caller's count. -/
def get_mem_handles_count (actual callerCount : Nat) : Nat :=
  if callerCount = 0 then actual
  else if actual < callerCount then actual
  else callerCount

/-- Loop body of the test
`GivenInvalidComponentCountWhenRetrievingSysmanHandlesThenActualComponentCountIsUpdated`
(test_sysman_memory.cpp lines 68-79) for one device with `actual` enumerable
handles: enumerate with count 0, fail when the count comes back 0, then
enumerate again with the count inflated by one and check it is corrected. -/
def invalidCountTestBodyPasses (actual : Nat) : Bool :=
  let actual_count := get_mem_handles_count actual 0
  if actual_count = 0 then false
  else
    let test_count := get_mem_handles_count actual (actual_count + 1)
    test_count = actual_count

/-- The fields of `zes_mem_properties_t` that the embedded tests inspect
(type, onSubdevice, subdeviceId, physicalSize, location, busWidth,
numChannels).  Enum-typed fields are carried as integers. -/
structure zes_mem_properties_t where
  type : Nat
  onSubdevice : Bool
  subdeviceId : Nat
  physicalSize : Nat
  location : Int
  busWidth : Int
  numChannels : Int
deriving DecidableEq

/-- The comparison performed by
`GivenValidMemHandleWhenRetrievingMemPropertiesThenExpectSamePropertiesReturnedTwice`
(test_sysman_memory.cpp lines 148-161) between the two query results:
equality of every field, with `subdeviceId` compared only when both results
report `onSubdevice`. -/
def samePropertiesCheckPasses (a b : zes_mem_properties_t) : Bool :=
  decide (a.type = b.type) &&
  decide (a.onSubdevice = b.onSubdevice) &&
  (if a.onSubdevice && b.onSubdevice then decide (a.subdeviceId = b.subdeviceId)
   else true) &&
  decide (a.physicalSize = b.physicalSize) &&
  decide (a.location = b.location) &&
  decide (a.busWidth = b.busWidth) &&
  decide (a.numChannels = b.numChannels)

/-- Immutable-property query `lzt::get_mem_properties`.  Modelled from the
spec: the wrapper (test_harness, not under `src/`) queries properties that the
spec (sections 4.3 and 8) declares immutable, so on a fixed driver the query
is a pure function of the handle.  `driver` is that function and handles are
abstracted to `Nat`. -/
def get_mem_properties (driver : Nat → zes_mem_properties_t) (h : Nat) :
    zes_mem_properties_t :=
  driver h

/-- The fields of `zes_mem_state_t` that the embedded tests inspect.  The
`health` enum is carried as an integer so that the test's range check is
meaningful. -/
structure zes_mem_state_t where
  health : Int
  free : Nat
  size : Nat
deriving DecidableEq

/-- Value of `ZES_MEM_HEALTH_UNKNOWN` in `zes_api.h`. -/
def ZES_MEM_HEALTH_UNKNOWN : Int := 0

/-- Value of `ZES_MEM_HEALTH_REPLACE`, the last `zes_mem_health_t`
enumerator, in `zes_api.h`. -/
def ZES_MEM_HEALTH_REPLACE : Int := 4

/-- The per-handle checks of
`GivenValidMemHandleWhenRetrievingMemStateThenValidStateIsReturned`
(test_sysman_memory.cpp lines 197-207): health within
[`ZES_MEM_HEALTH_UNKNOWN`, `ZES_MEM_HEALTH_REPLACE`], `state.size` bounded by
`properties.physicalSize` when the latter is non-zero, and
`state.free ≤ state.size`. -/
def memStateChecksPass (p : zes_mem_properties_t) (s : zes_mem_state_t) :
    Bool :=
  decide (ZES_MEM_HEALTH_UNKNOWN ≤ s.health) &&
  decide (s.health ≤ ZES_MEM_HEALTH_REPLACE) &&
  (if p.physicalSize ≠ 0 then decide (s.size ≤ p.physicalSize) else true) &&
  decide (s.free ≤ s.size)

/-- The state invariant as the spec words it (sections 4.3 and 8): free
capacity at most total size, total size at most the physical size when the
physical size is non-zero, and the health enum within the documented range. -/
def specMemStateInvariant (p : zes_mem_properties_t) (s : zes_mem_state_t) :
    Prop :=
  s.free ≤ s.size ∧
  (p.physicalSize ≠ 0 → s.size ≤ p.physicalSize) ∧
  ZES_MEM_HEALTH_UNKNOWN ≤ s.health ∧ s.health ≤ ZES_MEM_HEALTH_REPLACE

/-! ### Theorems for claims C1, C6, C7, C8, C9, C10 -/

/-- C1: the claim states that a child that read the record and opened the
pool executes the wait action selected by `child_type`, closes the IPC
handle, and exits 0.  The code contradicts this: the switch labels in
part_000 lines 117-126 lack the `case` keyword, so every one of the four
selector values dispatches to `default: exit(1)` and the child exits 1
having performed no action; the intended dispatch (selector values as case
labels) gives the behaviour the claim and the spec describe. -/
theorem ipc_child_switch_defaults_exit_one :
    (∀ ct, childMain true true ct = ⟨1, []⟩) ∧
    (∀ ct, childMainIntended true true ct =
      ⟨0, [childActionOf ct, ChildAction.closeIpcHandle]⟩) := by
  constructor
  · intro ct
    cases ct <;> rfl
  · intro ct
    cases ct <;> rfl

/-- C10: when `lzt::open_ipc_event_handle` yields a null pool handle, the
child exits immediately with status 1 (part_000 lines 114-115), performing
none of the four wait actions. -/
theorem ipc_child_null_handle_exit :
    ∀ ct, childMain true false ct = ⟨1, []⟩ := by
  intro ct
  cases ct <;> rfl

/-- C9: in the child debugger, the child is notified to proceed only after a
debug session was successfully attached (a notify event implies attach
succeeded and an attach event precedes it in the trace); if attach fails the
debugger exits with status 1 without ever notifying; and detach is performed
only after waiting for the child process to exit. -/
theorem child_debugger_ordering (initOk deviceFound attachOk : Bool)
    (childExitCode : Nat) :
    (initOk = true → deviceFound = true → attachOk = false →
      (debugger_main initOk deviceFound attachOk childExitCode).exitCode = 1 ∧
      (debugger_main initOk deviceFound attachOk childExitCode).events.contains
        DbgEvent.evNotifyApplication = false) ∧
    ((debugger_main initOk deviceFound attachOk childExitCode).events.contains
        DbgEvent.evNotifyApplication = true → attachOk = true) ∧
    occursBefore DbgEvent.evAttach DbgEvent.evNotifyApplication
      (debugger_main initOk deviceFound attachOk childExitCode).events = true ∧
    occursBefore DbgEvent.evWaitChild DbgEvent.evDetach
      (debugger_main initOk deviceFound attachOk childExitCode).events = true := by
  cases initOk <;> cases deviceFound <;> cases attachOk <;>
    simp [debugger_main, occursBefore]

/-- Witness for C9 at a concrete input: attach fails, so the debugger exits
with status 1 and the trace contains no notify event. -/
theorem child_debugger_ordering_witness :
    (debugger_main true true false 0).exitCode = 1 ∧
    (debugger_main true true false 0).events.contains
      DbgEvent.evNotifyApplication = false :=
  (child_debugger_ordering true true false 0).1 rfl rfl rfl

/-- C6: for a device with at least one enumerable memory-module handle,
enumerating with a caller count one larger than the actual count stores back
the actual count, and the embedded test body of lines 68-79 passes. -/
theorem enum_inflated_count_corrected (n : Nat) (h : 1 ≤ n) :
    get_mem_handles_count n (get_mem_handles_count n 0 + 1) =
      get_mem_handles_count n 0 ∧
    invalidCountTestBodyPasses n = true := by
  have hn : ¬ n = 0 := by omega
  constructor
  · simp [get_mem_handles_count, hn]
  · simp [invalidCountTestBodyPasses, get_mem_handles_count, hn]

/-- Witness for C6 at a device with three memory-module handles. -/
theorem enum_inflated_count_corrected_witness :
    get_mem_handles_count 3 (get_mem_handles_count 3 0 + 1) =
      get_mem_handles_count 3 0 ∧
    invalidCountTestBodyPasses 3 = true :=
  enum_inflated_count_corrected 3 (by decide)

/-- C7: on a fixed driver, querying the immutable properties of the same
handle twice yields identical results in every field the test compares, so
every comparison of test lines 152-160 passes. -/
theorem mem_properties_query_twice_identical
    (driver : Nat → zes_mem_properties_t) (h : Nat) :
    samePropertiesCheckPasses (get_mem_properties driver h)
      (get_mem_properties driver h) = true := by
  simp [samePropertiesCheckPasses, get_mem_properties]

/-- C8: the per-handle checks of test lines 197-207 pass exactly when the
queried state satisfies the spec's ordering invariants: free ≤ size,
size ≤ physicalSize whenever physicalSize is non-zero, and the health enum
within [`ZES_MEM_HEALTH_UNKNOWN`, `ZES_MEM_HEALTH_REPLACE`]. -/
theorem mem_state_checks_iff_invariant (p : zes_mem_properties_t)
    (s : zes_mem_state_t) :
    memStateChecksPass p s = true ↔ specMemStateInvariant p s := by
  by_cases hp : p.physicalSize = 0 <;>
    simp [memStateChecksPass, specMemStateInvariant, hp] <;> tauto

/-! ### Condition-variable barrier of the two-thread concurrency test
(`test_sysman_memory.cpp` lines 22-24, 344-347, 362-365, 373-382) -/

/-- Control location of one barrier participant, i.e. of one call of
`getMemoryState` or `getRasState`: before the handle enumeration
(`pStart`), returned early at the `FAIL()` for a zero handle count
(`pFailed`), holding an incremented `ready` inside
`condition_variable.wait` (`pWaiting`), or past the wait and running the
state-query calls (`pReleased`). -/
inductive Phase where
  | pStart
  | pFailed
  | pWaiting
  | pReleased
deriving DecidableEq

/-- Shared state of the barrier: the file-scope counter `ready`
(test_sysman_memory.cpp line 24) plus the control location of every
participant thread. -/
structure BarrierState where
  ready : Nat
  pcs : List Phase
deriving DecidableEq

/-- One atomic step of a participant `i` of the barrier protocol.

* `fail`: the handle count came back zero, so the thread returns at the
  `FAIL()` (lines 340-343 / 358-361) without touching the barrier.
* `arrive`: the thread acquires `mem_mutex`, executes `ready++` and
  `condition_variable.notify_all()` and enters the predicate wait
  (lines 344-347 / 362-365); the three statements run under the mutex and
  are modelled as one atomic transition.
* `release`: `condition_variable.wait(lock, [] { return ready == 2; })`
  returns, which under C++ predicate-wait semantics happens only in a state
  where `ready == 2` holds; the thread then proceeds to the state-query
  loop (lines 348-351 / 366-370). -/
inductive BStep : BarrierState → BarrierState → Prop where
  | fail (s : BarrierState) (i : Nat) (h : s.pcs[i]? = some Phase.pStart) :
      BStep s ⟨s.ready, s.pcs.set i Phase.pFailed⟩
  | arrive (s : BarrierState) (i : Nat) (h : s.pcs[i]? = some Phase.pStart) :
      BStep s ⟨s.ready + 1, s.pcs.set i Phase.pWaiting⟩
  | release (s : BarrierState) (i : Nat)
      (h : s.pcs[i]? = some Phase.pWaiting) (h2 : s.ready = 2) :
      BStep s ⟨s.ready, s.pcs.set i Phase.pReleased⟩

/-- Finitely many barrier steps, in any interleaving. -/
inductive BSteps : BarrierState → BarrierState → Prop where
  | refl (s : BarrierState) : BSteps s s
  | tail {s t u : BarrierState} : BSteps s t → BStep t u → BSteps s u

/-- Initial barrier state for `n` participant threads: `ready` is zero
(line 24) and every participant is before its enumeration. -/
def initBarrier (n : Nat) : BarrierState :=
  ⟨0, List.replicate n Phase.pStart⟩

/-- States reachable in the two-thread test
`GivenValidMemoryAndRasHandlesWhenGettingMemoryGetStateAndRasGetStateFromDifferentThreadsThenExpectBothToReturnSucess`
(lines 373-382) for a single device: participant 0 is the `getRasState`
thread and participant 1 the `getMemoryState` thread. -/
def Reachable2 (s : BarrierState) : Prop :=
  BSteps (initBarrier 2) s

/-- A participant has arrived at the barrier (has executed its `ready++`). -/
def arrivedP (p : Phase) : Bool :=
  match p with
  | .pWaiting => true
  | .pReleased => true
  | _ => false

/-- Number of participants that have executed their `ready++`. -/
def countArrived : List Phase → Nat
  | [] => 0
  | p :: rest => countArrived rest + (arrivedP p).toNat

theorem countArrived_le_length (l : List Phase) : countArrived l ≤ l.length := by
  induction l with
  | nil => simp [countArrived]
  | cons p rest ih =>
    simp only [countArrived, List.length_cons]
    cases arrivedP p <;> simp [Bool.toNat] <;> omega

theorem countArrived_lt_length (l : List Phase) (j : Nat) (v : Phase)
    (h : l[j]? = some v) (hv : arrivedP v = false) :
    countArrived l < l.length := by
  induction l generalizing j with
  | nil => simp at h
  | cons p rest ih =>
    cases j with
    | zero =>
      simp only [List.getElem?_cons_zero, Option.some.injEq] at h
      subst h
      have hle := countArrived_le_length rest
      simp only [countArrived, List.length_cons, hv, Bool.toNat_false]
      omega
    | succ n =>
      simp only [List.getElem?_cons_succ] at h
      have := ih n h
      simp only [countArrived, List.length_cons]
      cases arrivedP p <;> simp [Bool.toNat] <;> omega

theorem countArrived_set (l : List Phase) (i : Nat) (v old : Phase)
    (h : l[i]? = some old) :
    countArrived (l.set i v) + (arrivedP old).toNat =
      countArrived l + (arrivedP v).toNat := by
  induction l generalizing i with
  | nil => simp at h
  | cons p rest ih =>
    cases i with
    | zero =>
      simp only [List.getElem?_cons_zero, Option.some.injEq] at h
      subst h
      simp only [List.set, countArrived]
      omega
    | succ n =>
      simp only [List.getElem?_cons_succ] at h
      have := ih n h
      simp only [List.set, countArrived]
      omega

/-- Invariant of the two-thread barrier: there are two participants, `ready`
counts exactly the participants that have incremented it, and a released
participant certifies that `ready` is 2. -/
def Inv2 (s : BarrierState) : Prop :=
  s.pcs.length = 2 ∧ s.ready = countArrived s.pcs ∧
  ∀ i : Nat, s.pcs[i]? = some Phase.pReleased → s.ready = 2

theorem getq_replicate_pStart (n i : Nat) (v : Phase)
    (h : (List.replicate n Phase.pStart)[i]? = some v) : v = Phase.pStart := by
  induction n generalizing i with
  | zero => simp at h
  | succ m ih =>
    rw [List.replicate_succ] at h
    cases i with
    | zero =>
      simp only [List.getElem?_cons_zero, Option.some.injEq] at h
      exact h.symm
    | succ k =>
      simp only [List.getElem?_cons_succ] at h
      exact ih k h

theorem inv2_init : Inv2 (initBarrier 2) := by
  refine ⟨rfl, rfl, ?_⟩
  intro i h
  have := getq_replicate_pStart 2 i _ h
  exact absurd this (by decide)

theorem inv2_step {s t : BarrierState} (hst : BStep s t) (hs : Inv2 s) :
    Inv2 t := by
  obtain ⟨hlen, hcount, hrel⟩ := hs
  cases hst with
  | fail i h =>
    refine ⟨by simpa using hlen, ?_, ?_⟩
    · have hc := countArrived_set s.pcs i Phase.pFailed Phase.pStart h
      simp only [arrivedP, Bool.toNat_false] at hc
      show s.ready = countArrived (s.pcs.set i Phase.pFailed)
      omega
    · intro j hj
      show s.ready = 2
      by_cases hij : i = j
      · subst hij
        have hlt : i < s.pcs.length := (List.getElem?_eq_some.mp h).1
        rw [show (⟨s.ready, s.pcs.set i Phase.pFailed⟩ : BarrierState).pcs =
          s.pcs.set i Phase.pFailed from rfl, List.getElem?_set_eq_of_lt _ hlt]
          at hj
        exact absurd hj (by simp)
      · rw [show (⟨s.ready, s.pcs.set i Phase.pFailed⟩ : BarrierState).pcs =
          s.pcs.set i Phase.pFailed from rfl, List.getElem?_set_ne hij] at hj
        exact hrel j hj
  | arrive i h =>
    refine ⟨by simpa using hlen, ?_, ?_⟩
    · have hc := countArrived_set s.pcs i Phase.pWaiting Phase.pStart h
      simp only [arrivedP, Bool.toNat_false, Bool.toNat_true] at hc
      show s.ready + 1 = countArrived (s.pcs.set i Phase.pWaiting)
      omega
    · intro j hj
      show s.ready + 1 = 2
      by_cases hij : i = j
      · subst hij
        have hlt : i < s.pcs.length := (List.getElem?_eq_some.mp h).1
        rw [show (⟨s.ready + 1, s.pcs.set i Phase.pWaiting⟩ : BarrierState).pcs =
          s.pcs.set i Phase.pWaiting from rfl, List.getElem?_set_eq_of_lt _ hlt]
          at hj
        exact absurd hj (by simp)
      · rw [show (⟨s.ready + 1, s.pcs.set i Phase.pWaiting⟩ : BarrierState).pcs =
          s.pcs.set i Phase.pWaiting from rfl, List.getElem?_set_ne hij] at hj
        have h2 := hrel j hj
        have hlt := countArrived_lt_length s.pcs i Phase.pStart h rfl
        omega
  | release i h h2 =>
    refine ⟨by simpa using hlen, ?_, fun j hj => h2⟩
    have hc := countArrived_set s.pcs i Phase.pReleased Phase.pWaiting h
    simp only [arrivedP, Bool.toNat_true] at hc
    show s.ready = countArrived (s.pcs.set i Phase.pReleased)
    omega

theorem inv2_reachable {s : BarrierState} (h : Reachable2 s) : Inv2 s := by
  induction h with
  | refl => exact inv2_init
  | tail _ hstep ih => exact inv2_step hstep ih

/-- C2: in every reachable state of the two-thread concurrency test's
barrier, `ready` equals the number of participants that have incremented it
(so each participant that reaches the barrier increments it exactly once),
and any participant that has passed the `condition_variable` wait and is
running its state-query calls certifies `ready = 2`: neither thread invokes
the query calls under test before the counter has reached the participant
count 2. -/
theorem concurrent_state_query_barrier (s : BarrierState)
    (h : Reachable2 s) :
    s.ready = countArrived s.pcs ∧
    ∀ i : Nat, s.pcs[i]? = some Phase.pReleased → s.ready = 2 := by
  have hinv := inv2_reachable h
  exact ⟨hinv.2.1, hinv.2.2⟩

/-- Witness for C2: the state reached by thread 0 arriving, thread 1
arriving, and thread 0 passing the barrier is reachable, and the theorem
evaluates there: `ready` is 2, the number of arrived participants. -/
theorem concurrent_state_query_barrier_witness :
    (⟨2, [Phase.pReleased, Phase.pWaiting]⟩ : BarrierState).ready =
      countArrived [Phase.pReleased, Phase.pWaiting] := by
  have d0 : Reachable2 (initBarrier 2) := BSteps.refl _
  have d1 : Reachable2 ⟨1, [Phase.pWaiting, Phase.pStart]⟩ :=
    BSteps.tail d0 (BStep.arrive (initBarrier 2) 0 (by decide))
  have d2 : Reachable2 ⟨2, [Phase.pWaiting, Phase.pWaiting]⟩ :=
    BSteps.tail d1
      (BStep.arrive ⟨1, [Phase.pWaiting, Phase.pStart]⟩ 1 (by decide))
  have d3 : Reachable2 ⟨2, [Phase.pReleased, Phase.pWaiting]⟩ :=
    BSteps.tail d2
      (BStep.release ⟨2, [Phase.pWaiting, Phase.pWaiting]⟩ 0 (by decide) rfl)
  exact (concurrent_state_query_barrier _ d3).1

theorem bstep_ready_shape {s t : BarrierState} (h : BStep s t) :
    t.ready = s.ready ∨ t.ready = s.ready + 1 := by
  cases h with
  | fail i h => exact Or.inl rfl
  | arrive i h => exact Or.inr rfl
  | release i h h2 => exact Or.inl rfl

theorem bstep_stale {s t : BarrierState} (i : Nat) (h : BStep s t)
    (hr : 3 ≤ s.ready) (hw : s.pcs[i]? = some Phase.pWaiting) :
    3 ≤ t.ready ∧ t.pcs[i]? = some Phase.pWaiting := by
  cases h with
  | fail j hj =>
    have hij : j ≠ i := by
      intro he
      rw [he, hw] at hj
      exact absurd hj (by simp)
    refine ⟨hr, ?_⟩
    show (s.pcs.set j Phase.pFailed)[i]? = some Phase.pWaiting
    rw [List.getElem?_set_ne hij]
    exact hw
  | arrive j hj =>
    have hij : j ≠ i := by
      intro he
      rw [he, hw] at hj
      exact absurd hj (by simp)
    refine ⟨?_, ?_⟩
    · show 3 ≤ s.ready + 1
      omega
    · show (s.pcs.set j Phase.pWaiting)[i]? = some Phase.pWaiting
      rw [List.getElem?_set_ne hij]
      exact hw
  | release j hj h2 =>
    exact absurd h2 (by omega)

theorem bsteps_stale {s t : BarrierState} (i : Nat) (h : BSteps s t)
    (hr : 3 ≤ s.ready) (hw : s.pcs[i]? = some Phase.pWaiting) :
    3 ≤ t.ready ∧ t.pcs[i]? = some Phase.pWaiting := by
  induction h with
  | refl => exact ⟨hr, hw⟩
  | tail _ hstep ih => exact bstep_stale i hstep ih.1 ih.2

theorem bsteps_ready_mono {s t : BarrierState} (h : BSteps s t) :
    s.ready ≤ t.ready := by
  induction h with
  | refl => exact Nat.le_refl _
  | tail _ hstep ih =>
    rcases bstep_ready_shape hstep with he | he <;> omega

/-- C3: the barrier counter `ready` is only ever incremented, by exactly one
per arrival (no barrier operation resets or decrements it), so it is
monotonically non-decreasing along every execution; once it has passed 2 the
release predicate `ready == 2` can never hold again; and a participant that
is inside the `condition_variable` wait while `ready` is already at least 3
— as the threads of the second and later iterations of the per-device loop
are, since `ready` is file-scope and never reset — stays inside the wait in
every later state. -/
theorem barrier_ready_monotone_stale_waiters :
    (∀ s t : BarrierState, BStep s t →
      t.ready = s.ready ∨ t.ready = s.ready + 1) ∧
    (∀ s t : BarrierState, BSteps s t →
      s.ready ≤ t.ready ∧
      (3 ≤ s.ready → t.ready ≠ 2) ∧
      (∀ i : Nat, 3 ≤ s.ready → s.pcs[i]? = some Phase.pWaiting →
        t.pcs[i]? = some Phase.pWaiting)) := by
  refine ⟨fun s t h => bstep_ready_shape h,
    fun s t h => ⟨bsteps_ready_mono h, ?_, ?_⟩⟩
  · intro h3
    have := bsteps_ready_mono h
    omega
  · intro i h3 hw
    exact (bsteps_stale i h h3 hw).2

/-- Witness for C3: a third participant arrives while `ready` is already 3
(the situation of the second device iteration); the theorem evaluates at the
corresponding concrete step, showing the counter moved 3 → 4, is not 2
afterwards, and the already-waiting participant 2 is still waiting. -/
theorem barrier_ready_monotone_stale_waiters_witness :
    ((⟨4, [Phase.pReleased, Phase.pReleased, Phase.pWaiting, Phase.pWaiting]⟩ :
        BarrierState).ready ≠ 2) ∧
    ((⟨4, [Phase.pReleased, Phase.pReleased, Phase.pWaiting, Phase.pWaiting]⟩ :
        BarrierState).pcs[2]? = some Phase.pWaiting) := by
  have hstep : BStep
      ⟨3, [Phase.pReleased, Phase.pReleased, Phase.pWaiting, Phase.pStart]⟩
      ⟨4, [Phase.pReleased, Phase.pReleased, Phase.pWaiting, Phase.pWaiting]⟩ :=
    BStep.arrive
      ⟨3, [Phase.pReleased, Phase.pReleased, Phase.pWaiting, Phase.pStart]⟩ 3
      (by decide)
  have hsteps := BSteps.tail
    (BSteps.refl
      ⟨3, [Phase.pReleased, Phase.pReleased, Phase.pWaiting, Phase.pStart]⟩)
    hstep
  have hmain := barrier_ready_monotone_stale_waiters.2 _ _ hsteps
  exact ⟨hmain.2.1 (by decide), hmain.2.2 2 (by decide) (by decide)⟩

/-! ### Resource-exhaustion allocation loop
(`test_sysman_memory.cpp` lines 254-334, in particular 302-325) -/

/-- Outcome of one iteration of the allocation loop, i.e. of the external
calls it makes: whether `lzt::allocate_device_memory` returned a non-null
buffer (line 310), the result of `zeContextMakeMemoryResident` (line 319),
and the aggregated free memory reported by `get_free_memory_state`
afterwards (line 321). -/
structure AllocIter where
  allocOk : Bool
  residentResult : ze_result_t
  newFree : Nat
deriving DecidableEq

/-- Final state of the allocation loop: the value of `result` when the loop
exits, the list of performed allocations as pairs of (free memory at the
start of the iteration, requested allocation size), and the final value of
`free_memory`. -/
structure AllocLoopOut where
  result : ze_result_t
  allocs : List (Nat × Nat)
  freeLeft : Nat
deriving DecidableEq

/-- Embedding of the do-while loop of
`GivenValidMemHandleWhenAllocatingMemoryUptoMaxCapacityThenOutOfDeviceMemoryErrorIsReturned`
(lines 302-323).  Per iteration the body computes
`cur_mem_alloc_size = alloc_size` if `alloc_size <= free_memory` and
`free_memory` otherwise (lines 305-309), attempts the device allocation
(`break` on a null buffer, result unchanged, lines 310-317), makes the
buffer resident recording `result` (line 319), refreshes `free_memory`
(line 321), and repeats while
`result != ZE_RESULT_ERROR_OUT_OF_DEVICE_MEMORY && free_memory > 0`
(lines 322-323).  The iteration outcomes are supplied by `trace`; an
exhausted trace ends the run with the current values. -/
def allocLoop (aSize : Nat) : Nat → ze_result_t → List AllocIter → AllocLoopOut
  | free, res, [] => ⟨res, [], free⟩
  | free, res, o :: rest =>
    let cur := if aSize ≤ free then aSize else free
    if o.allocOk = false then ⟨res, [(free, cur)], free⟩
    else if o.residentResult ≠ ze_result_t.errorOutOfDeviceMemory ∧
        0 < o.newFree then
      let out := allocLoop aSize o.newFree o.residentResult rest
      ⟨out.result, (free, cur) :: out.allocs, out.freeLeft⟩
    else ⟨o.residentResult, [(free, cur)], o.newFree⟩

/-- The post-loop assertion
`EXPECT_EQ(ZE_RESULT_ERROR_OUT_OF_DEVICE_MEMORY, result)` (line 325). -/
def memMaxCapacityAssertPasses (out : AllocLoopOut) : Bool :=
  decide (out.result = ze_result_t.errorOutOfDeviceMemory)

theorem allocLoop_allocs_min (aSize free : Nat) (res : ze_result_t)
    (trace : List AllocIter) :
    ∀ pr ∈ (allocLoop aSize free res trace).allocs, pr.2 = min aSize pr.1 := by
  induction trace generalizing free res with
  | nil =>
    intro pr hpr
    simp [allocLoop] at hpr
  | cons o rest ih =>
    intro pr hpr
    simp only [allocLoop] at hpr
    by_cases hok : o.allocOk = false
    · rw [if_pos hok] at hpr
      simp only [List.mem_singleton] at hpr
      subst hpr
      simp [Nat.min_def]
    · rw [if_neg hok] at hpr
      by_cases hcond : o.residentResult ≠ ze_result_t.errorOutOfDeviceMemory ∧
          0 < o.newFree
      · rw [if_pos hcond] at hpr
        simp only [List.mem_cons] at hpr
        rcases hpr with hpr | hpr
        · subst hpr
          simp [Nat.min_def]
        · exact ih o.newFree o.residentResult pr hpr
      · rw [if_neg hcond] at hpr
        simp only [List.mem_singleton] at hpr
        subst hpr
        simp [Nat.min_def]

theorem allocLoop_oom_stops (aSize : Nat) (o : AllocIter)
    (ho : o.allocOk = true)
    (hr : o.residentResult = ze_result_t.errorOutOfDeviceMemory) :
    ∀ (pre : List AllocIter) (free : Nat) (res : ze_result_t)
      (post : List AllocIter),
      (∀ e ∈ pre, e.allocOk = true ∧
        e.residentResult ≠ ze_result_t.errorOutOfDeviceMemory ∧
        0 < e.newFree) →
      (allocLoop aSize free res (pre ++ o :: post)).result =
        ze_result_t.errorOutOfDeviceMemory ∧
      (allocLoop aSize free res (pre ++ o :: post)).allocs.length =
        pre.length + 1 := by
  intro pre
  induction pre with
  | nil =>
    intro free res post _
    simp only [List.nil_append, allocLoop, ho]
    rw [if_neg (by simp), if_neg (by simp [hr])]
    exact ⟨hr, rfl⟩
  | cons e rest ih =>
    intro free res post hpre
    obtain ⟨heok, heres, hefree⟩ := hpre e (List.mem_cons_self e rest)
    have hrest : ∀ x ∈ rest, x.allocOk = true ∧
        x.residentResult ≠ ze_result_t.errorOutOfDeviceMemory ∧
        0 < x.newFree := fun x hx => hpre x (List.mem_cons_of_mem e hx)
    have hout := ih e.newFree e.residentResult post hrest
    simp only [List.cons_append, allocLoop]
    rw [if_neg (by simp [heok]), if_pos ⟨heres, hefree⟩]
    simp only [List.length_cons]
    exact ⟨hout.1, congrArg (· + 1) hout.2⟩

/-- C5: for every sequence of driver responses, (a) each iteration of the
allocation loop requests exactly `min(alloc_size, free_memory)` bytes;
(b) the loop stops at the first make-resident call that reports
`ZE_RESULT_ERROR_OUT_OF_DEVICE_MEMORY` (given that all earlier iterations
allocated successfully and continued), leaving that code in `result`; and
(c) the post-loop assertion passes exactly when `result` is that specific
code, so any other terminal condition of the loop is a test failure. -/
theorem alloc_loop_until_oom_and_assertion (aSize free : Nat)
    (res : ze_result_t) (trace : List AllocIter) :
    (∀ pr ∈ (allocLoop aSize free res trace).allocs,
      pr.2 = min aSize pr.1) ∧
    (memMaxCapacityAssertPasses (allocLoop aSize free res trace) = true ↔
      (allocLoop aSize free res trace).result =
        ze_result_t.errorOutOfDeviceMemory) ∧
    ((allocLoop aSize free res trace).result ≠
        ze_result_t.errorOutOfDeviceMemory →
      memMaxCapacityAssertPasses (allocLoop aSize free res trace) = false) ∧
    (∀ (pre : List AllocIter) (o : AllocIter) (post : List AllocIter),
      trace = pre ++ o :: post →
      (∀ e ∈ pre, e.allocOk = true ∧
        e.residentResult ≠ ze_result_t.errorOutOfDeviceMemory ∧
        0 < e.newFree) →
      o.allocOk = true →
      o.residentResult = ze_result_t.errorOutOfDeviceMemory →
      (allocLoop aSize free res trace).result =
        ze_result_t.errorOutOfDeviceMemory ∧
      (allocLoop aSize free res trace).allocs.length = pre.length + 1) := by
  refine ⟨allocLoop_allocs_min aSize free res trace, ?_, ?_, ?_⟩
  · simp [memMaxCapacityAssertPasses]
  · intro hne
    simp [memMaxCapacityAssertPasses, hne]
  · intro pre o post htr hpre ho hr
    subst htr
    exact allocLoop_oom_stops aSize o ho hr pre free res post hpre

/-- Witness for C5 at a concrete trace: one successful iteration that keeps
free memory positive, then an iteration whose make-resident call reports
out-of-device-memory; the loop exits with that code after exactly two
allocations. -/
theorem alloc_loop_until_oom_and_assertion_witness :
    (allocLoop 4 100 ze_result_t.success
      [⟨true, ze_result_t.success, 50⟩,
        ⟨true, ze_result_t.errorOutOfDeviceMemory, 46⟩]).result =
      ze_result_t.errorOutOfDeviceMemory ∧
    (allocLoop 4 100 ze_result_t.success
      [⟨true, ze_result_t.success, 50⟩,
        ⟨true, ze_result_t.errorOutOfDeviceMemory, 46⟩]).allocs.length = 2 :=
  (alloc_loop_until_oom_and_assertion 4 100 ze_result_t.success
      [⟨true, ze_result_t.success, 50⟩,
        ⟨true, ze_result_t.errorOutOfDeviceMemory, 46⟩]).2.2.2
    [⟨true, ze_result_t.success, 50⟩]
    ⟨true, ze_result_t.errorOutOfDeviceMemory, 46⟩ [] rfl (by decide) rfl rfl

/-- Counterexample for C4: a run in which the aggregated free memory reaches
zero while the last make-resident call still returned success.  The loop
terminates (result `success`, free 0), but the claim that the test then
terminates WITHOUT asserting a failure is false: the post-loop assertion
`EXPECT_EQ(ZE_RESULT_ERROR_OUT_OF_DEVICE_MEMORY, result)` (line 325) fails,
recording a test failure. -/
theorem alloc_loop_free_zero_asserts_failure_cex :
    (allocLoop 4 10 ze_result_t.success
      [⟨true, ze_result_t.success, 0⟩]).result = ze_result_t.success ∧
    (allocLoop 4 10 ze_result_t.success
      [⟨true, ze_result_t.success, 0⟩]).freeLeft = 0 ∧
    memMaxCapacityAssertPasses
      (allocLoop 4 10 ze_result_t.success
        [⟨true, ze_result_t.success, 0⟩]) = false := by
  decide

/-- C4 amended: if the allocation loop exits with free memory at zero while
the most recent make-resident call still returned success, the loop
terminates, but the test then fails its post-loop assertion
`EXPECT_EQ(ZE_RESULT_ERROR_OUT_OF_DEVICE_MEMORY, result)`, so a test
failure is asserted. -/
theorem alloc_loop_free_zero_success_fails_assertion (aSize free : Nat)
    (res : ze_result_t) (trace : List AllocIter)
    (_hfree : (allocLoop aSize free res trace).freeLeft = 0)
    (hres : (allocLoop aSize free res trace).result = ze_result_t.success) :
    memMaxCapacityAssertPasses (allocLoop aSize free res trace) = false := by
  simp [memMaxCapacityAssertPasses, hres]

/-- Witness for the amended C4 at the counterexample input. -/
theorem alloc_loop_free_zero_success_fails_assertion_witness :
    memMaxCapacityAssertPasses
      (allocLoop 4 10 ze_result_t.success
        [⟨true, ze_result_t.success, 0⟩]) = false :=
  alloc_loop_free_zero_success_fails_assertion 4 10 ze_result_t.success
    [⟨true, ze_result_t.success, 0⟩] (by decide) (by decide)
